import Mathlib

/-!
Shallow embedding of the cloud ops provisioning orchestrator
(`c.ops_provisioner/cloud_ops_provisioning.py`) and proofs about its
documented behaviour.

Modelling conventions:
- Python strings are Lean `String`s; the regex character classes `\d` and
  `[\w-]` are modelled over ASCII (`Char.isDigit`, alphanumeric/underscore/
  hyphen).
- Python `re.search` with a pattern anchored as `^...$` is modelled
  including CPython's `$` semantics: `$` matches at the end of the string
  or just before a single newline at the end of the string.
- `json.loads` / `json.load` are external library calls; their outcome is
  passed in as data (`Option`/`Except`), everything after the call is
  translated from the source.
- Exceptions are modelled with `Except`; an exception type that a
  try/except in the source does not catch is propagated in the model.
-/

namespace Provisioning

/-- `ProvisioningStatus` enum from the source. -/
inductive ProvisioningStatus
| PENDING
| RUNNING
| SUCCESS
| FAILURE
| SKIPPED
deriving DecidableEq, Repr

/-- The string value of each `ProvisioningStatus` member (it is a `str` enum). -/
def ProvisioningStatus.value : ProvisioningStatus → String
| .PENDING => "PENDING"
| .RUNNING => "RUNNING"
| .SUCCESS => "SUCCESS"
| .FAILURE => "FAILURE"
| .SKIPPED => "SKIPPED"

/-- `InstanceInfo` dataclass: project, zone, instance name. -/
structure InstanceInfo where
  project : String
  zone : String
  instanceName : String
deriving DecidableEq, Repr

/-- `InstanceInfo.__str__`: the canonical full name. -/
def InstanceInfo.str (i : InstanceInfo) : String :=
  "projects/" ++ i.project ++ "/zones/" ++ i.zone ++ "/instances/" ++ i.instanceName

/-- `InstanceInfo.AsFilename`. -/
def InstanceInfo.AsFilename (i : InstanceInfo) : String :=
  i.project ++ "_" ++ i.zone ++ "_" ++ i.instanceName

/-- `AgentDetail` dataclass. -/
structure AgentDetail where
  name : String
  repo_script : String
  start_agent_script : String
  additional_install_flags : String
deriving DecidableEq, Repr

/-- `_AGENT_DETAILS`: keyed by the string value of the `AgentType` str-enum
(the source looks entries up with plain strings coming from the decoded JSON
rules, which works because `AgentType` derives from `str`). `none` models a
key that is not present (a `KeyError` / failed `in` test in Python). -/
def AGENT_DETAILS : String → Option AgentDetail
| "logging" => some ⟨"google-fluentd", "add-logging-agent-repo.sh",
    "sudo service google-fluentd start", ""⟩
| "metrics" => some ⟨"stackdriver-agent", "add-monitoring-agent-repo.sh",
    "sudo service stackdriver-agent start", ""⟩
| "ops-agent" => some ⟨"google-cloud-ops-agent", "add-google-cloud-ops-agent-repo.sh",
    ":",
    "--uninstall-standalone-logging-agent --uninstall-standalone-monitoring-agent"⟩
| _ => none

/-- Insertion order of the keys of `_AGENT_DETAILS` (used by the error text
`", ".join(_AGENT_DETAILS.keys())`). -/
def AGENT_DETAILS_keys : List String := ["logging", "metrics", "ops-agent"]

/-- `_AGENT_VERSION_LATEST`. -/
def AGENT_VERSION_LATEST : String := "latest"

/-- Split a character list at every occurrence of `sep` (the separators used
by the modelled regexes are the single characters `.` and `/`). Agrees with
`String.splitOn` for a one-character separator. -/
def splitOnChar (sep : Char) : List Char → List (List Char)
| [] => [[]]
| c :: rest =>
  if c = sep then [] :: splitOnChar sep rest
  else
    match splitOnChar sep rest with
    | h :: t => (c :: h) :: t
    | [] => [[c]]

/-- `String.splitOn` for a one-character separator, via `splitOnChar`. -/
def strSplitOn (sep : Char) (s : String) : List String :=
  (splitOnChar sep s.data).map String.mk

/-- Whether the string ends with a newline character. -/
def strEndsWithNewline (s : String) : Bool :=
  match s.data.getLast? with
  | some c => c = '\n'
  | none => false

/-- The string without its last character. -/
def strDropLast (s : String) : String :=
  String.mk s.data.dropLast

/-- A nonempty all-ASCII-digit string: one `\d+` group. -/
def isDigitRun (s : String) : Bool :=
  !s.isEmpty && s.data.all Char.isDigit

/-- Matches `\d+\.\d+\.\d+` against the whole string (`_PINNED_VERSION_RE`
without the `$`-before-final-newline allowance). Since `\d` cannot match a
dot, the regex is equivalent to splitting on dots. -/
def matchesPinnedVersion (s : String) : Bool :=
  match strSplitOn '.' s with
  | [a, b, c] => isDigitRun a && isDigitRun b && isDigitRun c
  | _ => false

/-- Matches `\d+\.\*\.\*` against the whole string (`_PINNED_MAJOR_VERSION_RE`
without the `$`-before-final-newline allowance). -/
def matchesPinnedMajorVersion (s : String) : Bool :=
  match strSplitOn '.' s with
  | [a, b, c] => isDigitRun a && b == "*" && c == "*"
  | _ => false

/-- CPython semantics of `re.search` for a pattern of the shape `^core$`
(no MULTILINE): `^` pins the match to the start, and `$` accepts either the
end of the string or the position just before one final newline. -/
def searchAnchored (core : String → Bool) (s : String) : Bool :=
  core s || (strEndsWithNewline s && core (strDropLast s))

/-- `Provisioner._validate_agent_version`: empty error list means the version
is accepted. -/
def validate_agent_version (version : String) : List String :=
  if version = AGENT_VERSION_LATEST then []
  else if searchAnchored matchesPinnedMajorVersion version ||
          searchAnchored matchesPinnedVersion version then []
  else
    ["The agent version " ++ version ++ " is not allowed. Expected values: " ++
     "[latest] or anything in the format of " ++
     "[MAJOR_VERSION.MINOR_VERSION.PATCH_VERSION] or [MAJOR_VERSION.*.*]."]

/-- First-occurrence deduplication, matching the key order of a Python
`collections.Counter` built from a list. -/
def firstOccDedup : List String → List String
| [] => []
| a :: l => a :: (firstOccDedup l).filter (fun x => x ≠ a)

/-- `sorted(k for k, v in Counter(instances).items() if v > 1)` from
`Provisioner._validate_instances_duplication`. Python `sorted` returns the
unique ascending arrangement of its input, modelled with insertion sort over
the lexicographic order on strings. -/
def duplicate_instances (instances : List String) : List String :=
  List.insertionSort (· ≤ ·)
    ((firstOccDedup instances).filter (fun k => 1 < instances.count k))

/-- The per-duplicate error line of `_validate_instances_duplication`. -/
def duplicateErrorLine (instanceName : String) : String :=
  "Instance - " ++ instanceName ++ " has more than one record in the file. " ++
  "Please have at most one entry per instance."

/-- `Provisioner._validate_instances_duplication`: `none` means no exception,
`some msg` models raising `InstanceEntriesDuplicateError(msg)`. -/
def validate_instances_duplication (instances : List String) : Option String :=
  let dups := duplicate_instances instances
  if dups.isEmpty then none
  else some (String.intercalate "\n" (dups.map duplicateErrorLine))

/-- A decoded JSON agent rule as far as the validator reads it: the optional
`"type"` and `"version"` fields of the rule object. -/
structure RawAgentRule where
  typeField : Option String
  versionField : Option String
deriving DecidableEq, Repr

/-- An agent rule whose required `"type"` field is known to be present
(the shape `_extract_agent_rules` returns). -/
structure AgentRule where
  agentType : String
  versionField : Option String
deriving DecidableEq, Repr

/-- `Provisioner._extract_agent_rules`. The argument `agent_rules` is the
outcome of the external `json.loads` call on the raw rules string: `none`
models a `ValueError` from the JSON library, `some rs` a decoded rule list.
`Except.error` models raising `AgentRuleParseError`. -/
def extract_agent_rules (instanceName : String)
    (agent_rules : Option (List RawAgentRule)) : Except String (List AgentRule) :=
  match agent_rules with
  | none => .error ("Instance - " ++ instanceName ++ " has invalid agent_rules.")
  | some rs =>
    if rs.isEmpty then
      .error ("Instance - " ++ instanceName ++ " requires at least one agent rule.")
    else
      let type_errors := rs.filterMap (fun r =>
        match r.typeField with
        | none => some ("Instance - " ++ instanceName ++
            " has agent rules that is missing required `type` field.")
        | some _ => none)
      if type_errors.isEmpty then
        .ok (rs.filterMap (fun r =>
          r.typeField.map (fun t => AgentRule.mk t r.versionField)))
      else
        .error (String.intercalate "\n" type_errors)

/-- `Provisioner._validate_agent_types`: returns the accumulated error list.
`Counter(r["type"] for r in agent_rules)` iterates the distinct types in
first-occurrence order. -/
def validate_agent_types (agent_rules : List AgentRule) : List String :=
  let types := agent_rules.map (·.agentType)
  let invalidErrors := (firstOccDedup types).filterMap (fun t =>
    if (AGENT_DETAILS t).isNone then
      some ("Invalid agent type: " ++ t ++ ". Valid types are: " ++
        String.intercalate ", " AGENT_DETAILS_keys)
    else none)
  let duplicate_types := List.insertionSort (· ≤ ·)
    ((firstOccDedup types).filter (fun t => 1 < types.count t))
  let duplicateErrors := duplicate_types.map (fun t =>
    "At most one agent with type [" ++ t ++ "] is allowed.")
  let opsAgentErrors :=
    if 0 < types.count "ops-agent" ∧ 1 < types.length then
      ["An agent with type [ops-agent] is detected. " ++
       "No other agent type is allowed. The Ops Agent has both a logging " ++
       "module and a metrics module already."]
    else []
  invalidErrors ++ duplicateErrors ++ opsAgentErrors

/-- `Provisioner._parse_and_validate_agent_rules`: `Except.error` models
raising `AgentRuleInvalidError`. -/
def parse_and_validate_agent_rules (instanceName : String)
    (agent_rules : Option (List RawAgentRule)) : Except String (List AgentRule) :=
  match extract_agent_rules instanceName agent_rules with
  | .error e => .error e
  | .ok agent_rule_list =>
    let errors := validate_agent_types agent_rule_list ++
      agent_rule_list.flatMap (fun r =>
        match r.versionField with
        | some v => validate_agent_version v
        | none => [])
    if errors.isEmpty then .ok agent_rule_list
    else .error ("Instance - " ++ instanceName ++ ": " ++
      String.intercalate " | " errors)

/-- One `[\w-]` character, over ASCII: letter, digit, underscore or hyphen. -/
def isNameChar (c : Char) : Bool :=
  c.isAlphanum || c = '_' || c = '-'

/-- One `[\w-]+` group: nonempty run of name characters. -/
def isNameRun (s : String) : Bool :=
  !s.isEmpty && s.data.all isNameChar

/-- The core of the instance-full-name regex
`^projects\/([\w-]+)\/zones\/([\w-]+)\/instances\/([\w-]+)$` matched against
the whole string. `[\w-]` cannot match a slash, so the regex is equivalent
to splitting on slashes. -/
def matchInstanceFullNameCore (s : String) : Option InstanceInfo :=
  match strSplitOn '/' s with
  | ["projects", p, "zones", z, "instances", n] =>
    if isNameRun p && isNameRun z && isNameRun n then some ⟨p, z, n⟩ else none
  | _ => none

/-- `re.match` of the instance-full-name pattern, including the `$`-before-a-
final-newline allowance of CPython. -/
def matchInstanceFullName (s : String) : Option InstanceInfo :=
  match matchInstanceFullNameCore s with
  | some i => some i
  | none =>
    if strEndsWithNewline s then matchInstanceFullNameCore (strDropLast s)
    else none

/-- `Provisioner._parse_and_validate_instance_full_name`: `Except.error`
models raising `InstanceFullNameInvalidError`. -/
def parse_and_validate_instance_full_name (instanceName : String) :
    Except String InstanceInfo :=
  match matchInstanceFullName instanceName with
  | some i => .ok i
  | none => .error ("Instance - " ++ instanceName ++ " has invalid instance full name")

/-- One raw input entry as it reaches `_parse_and_validate_entries`: the raw
instance full-name string, and the outcome of JSON-decoding the rules string
(the decoding itself is the external `json` library). -/
structure Entry where
  instance_full_name : String
  agent_rules : Option (List RawAgentRule)
deriving DecidableEq, Repr

/-- The body of the per-entry loop of `_parse_and_validate_entries`: the
entry's accumulated error messages and, when there are none, its parsed
(instance, rules) pair. -/
def validateEntry (e : Entry) :
    List String × Option (InstanceInfo × List AgentRule) :=
  let instPart : List String × Option InstanceInfo :=
    match parse_and_validate_instance_full_name e.instance_full_name with
    | .ok i => ([], some i)
    | .error m => ([m], none)
  let rulesPart : List String × Option (List AgentRule) :=
    match parse_and_validate_agent_rules e.instance_full_name e.agent_rules with
    | .ok rs => ([], some rs)
    | .error m => ([m], none)
  let errs := instPart.1 ++ rulesPart.1
  match instPart.2, rulesPart.2 with
  | some i, some rs => (errs, if errs.isEmpty then some (i, rs) else none)
  | _, _ => (errs, none)

/-- The `error_msgs` list `_parse_and_validate_entries` accumulates: every
entry's error messages in input order, then the duplicate-instance error if
there is one. -/
def aggregated_error_msgs (entries : List Entry) : List String :=
  (entries.map (fun e => (validateEntry e).1)).flatten ++
  (match validate_instances_duplication (entries.map (·.instance_full_name)) with
   | some m => [m]
   | none => [])

/-- `Provisioner._parse_and_validate_entries`: accumulates the error messages
of every entry, then the duplicate-instance errors, and raises
`EntriesValidationError` (modelled by `Except.error`) joining them all if any
exist; otherwise returns the parsed entries. -/
def parse_and_validate_entries (entries : List Entry) :
    Except String (List (InstanceInfo × List AgentRule)) :=
  if (aggregated_error_msgs entries).isEmpty then
    .ok (entries.filterMap (fun e => (validateEntry e).2))
  else
    .error (String.intercalate "\n" (aggregated_error_msgs entries))

/-- Exceptions relevant to the modelled control flow. `sshCommandError` is the
scripted `SSHCommandError`; `typeError` models the interpreter-raised
`TypeError` of a call with the wrong number of positional arguments;
`jsonDecodeError` models `json.JSONDecodeError` from `json.load`. -/
inductive PyException
| sshCommandError (msg : String)
| typeError
| jsonDecodeError (msg : String)
deriving DecidableEq, Repr

/-- One value of the persisted state mapping:
`{"status": ..., "last_updated": ...}`. -/
structure StateRecord where
  status : String
  last_updated : String
deriving DecidableEq, Repr

/-- The persisted state mapping, canonical host string to record. -/
def StateMap := List (String × StateRecord)

/-- Dictionary lookup in the state mapping. -/
def stateLookup : StateMap → String → Option StateRecord
| [], _ => none
| (k, v) :: rest, name => if k = name then some v else stateLookup rest name

/-- What reading the state file yields before `json.load` interpretation:
the open call raised `FileNotFoundError`, or the file had content and the
external `json.load` call either produced a mapping or raised a decode
error carrying a message. -/
inductive StateFileRead
| fileNotFound
| content (jsonResult : Except String StateMap)

/-- `Provisioner._read_state`: with force mode the method returns before
touching the file (the state stays `{}`); otherwise only `FileNotFoundError`
is caught (treated as empty state), while a `json.JSONDecodeError` from
`json.load` is not caught and propagates. -/
def read_state (force : Bool) (file : StateFileRead) : Except PyException StateMap :=
  if force then .ok []
  else
    match file with
    | .fileNotFound => .ok []
    | .content (.ok m) => .ok m
    | .content (.error e) => .error (.jsonDecodeError e)

/-- The three built-in executor providers. -/
inductive ProviderKind
| localGcloud
| mock
| paramiko
deriving DecidableEq, Repr

/-- Provider selection in `Provisioner.__init__`: `paramiko` is checked
before the dry-run flag, then `dry_run` selects the mock, else the default
local-gcloud wrapper. -/
def selectProviderInstance (provider : String) (dry_run : Bool) : ProviderKind :=
  if provider = "paramiko" then .paramiko
  else if dry_run then .mock
  else .localGcloud

/-- `_MockProvider._Proc.wait()` result. -/
def mockProcWait : Int := 0

/-- `_MockProvider._Proc.communicate()` captured output. -/
def mockProcOutput : String := "[mock] simulated output"

/-- Number of positional parameters (after `self`) in each built-in
provider's `start_process(self, instance_info, command_str, log_file)`. -/
def startProcessParamCount : ProviderKind → Nat
| .localGcloud => 3
| .mock => 3
| .paramiko => 3

/-- Number of positional arguments passed at the call site inside
`ProvisioningTask._start_process`:
`self.provider.start_process(ssh_command, instance_file)`. -/
def startProcessCallArgCount : Nat := 2

/-- The executor environment a task runs against: for the process started on
attempt `i` (0-based), its `wait()` exit code and its `communicate()`
captured output. -/
structure Exec where
  exit : Nat → Int
  output : Nat → String

/-- `ProvisioningTask.ProcessInfo`, with the process handle identified by the
attempt index that started it. -/
structure ProcessInfo where
  attempt : Nat
  log_file : String
  out_content : Option String
deriving DecidableEq, Repr

/-- The message of the `SSHCommandError` raised when all retries are
exhausted. -/
def sshCommandErrorMsg (info : InstanceInfo) (max_retries : Nat)
    (instance_file : String) : String :=
  "Instance: " ++ info.instanceName ++ " - Command failed after " ++
  toString max_retries ++ " retries. See log file for more details: " ++
  instance_file

/-- The retry loop of `ProvisioningTask._start_process`, returning the number
of processes actually started, the backoff sleeps performed (in seconds), and
the outcome. `remaining` counts loop iterations left, `i` is the current
attempt index. On the provider path, the interpreter first checks the call's
positional-argument count against the provider method's parameter count and
raises `TypeError` on a mismatch before any process is started; the
`_popen` path (`provider is None`) has no such mismatch. A successful
`wait() == 0` returns the process info; a nonzero exit sleeps `2^i` and
retries; running out of iterations raises `SSHCommandError`. -/
def startAttempts (provider : Option ProviderKind) (ex : Exec)
    (instance_file errMsg : String) :
    Nat → Nat → Nat × List Nat × Except PyException ProcessInfo
| 0, _ => (0, [], .error (.sshCommandError errMsg))
| remaining + 1, i =>
  let callOk : Bool :=
    match provider with
    | some pk => startProcessCallArgCount == startProcessParamCount pk
    | none => true
  if callOk then
    if ex.exit i = 0 then
      (1, [], .ok ⟨i, instance_file, none⟩)
    else
      let rest := startAttempts provider ex instance_file errMsg remaining (i + 1)
      (rest.1 + 1, 2 ^ i :: rest.2.1, rest.2.2)
  else
    (0, [], .error .typeError)

/-- `ProvisioningTask` state (the fields the modelled behaviour reads). -/
structure Task where
  instance_info : InstanceInfo
  agent_rules : List AgentRule
  log_dir : String
  max_retries : Nat
  status : ProvisioningStatus
  process_info : Option ProcessInfo
  agents_status : List (String × String)
  provider : Option ProviderKind
deriving DecidableEq, Repr

/-- `ProvisioningTask.agent_types`. -/
def Task.agent_types (t : Task) : List String :=
  t.agent_rules.map (·.agentType)

/-- The per-instance log-file path built in `_start_process`
(`os.path.join(self.log_dir, f"{...AsFilename()}.log")`). -/
def Task.instance_file (t : Task) : String :=
  t.log_dir ++ "/" ++ t.instance_info.AsFilename ++ ".log"

/-- `ProvisioningTask._start_process` over the executor environment. -/
def start_process (t : Task) (ex : Exec) :
    Nat × List Nat × Except PyException ProcessInfo :=
  startAttempts t.provider ex t.instance_file
    (sshCommandErrorMsg t.instance_info t.max_retries t.instance_file)
    t.max_retries 0

/-- Result of `ProvisioningTask.run`: the task state afterwards, the number
of processes started, the sleeps performed, and an exception that escaped the
method (its `try` catches only `SSHCommandError`). -/
structure RunOutcome where
  task : Task
  invocations : Nat
  sleeps : List Nat
  uncaught : Option PyException
deriving DecidableEq, Repr

/-- `ProvisioningTask.run`: a Skipped task returns immediately; otherwise the
status becomes Running, `_start_process` runs, `SSHCommandError` is caught
and turns the status into Failure, any other exception propagates. -/
def ProvisioningTask.run (t : Task) (ex : Exec) : RunOutcome :=
  if t.status = ProvisioningStatus.SKIPPED then
    ⟨t, 0, [], none⟩
  else
    let t1 := { t with status := ProvisioningStatus.RUNNING }
    let r := start_process t ex
    match r.2.2 with
    | .ok pi => ⟨{ t1 with process_info := some pi }, r.1, r.2.1, none⟩
    | .error (.sshCommandError _) =>
      ⟨{ t1 with status := ProvisioningStatus.FAILURE }, r.1, r.2.1, none⟩
    | .error e => ⟨t1, r.1, r.2.1, some e⟩

/-- `_Bold`. -/
def Bold (content : String) : String :=
  "\x1b[1m" ++ content ++ "\x1b[0m"

/-- Whether `needle` is a prefix of `hay` (over lists of characters). -/
def leadMatch : List Char → List Char → Bool
| [], _ => true
| _ :: _, [] => false
| a :: as, b :: bs => a == b && leadMatch as bs

/-- Whether `needle` occurs contiguously inside `hay`. -/
def subOccurs : List Char → List Char → Bool
| needle, [] => needle.isEmpty
| needle, hay@(_ :: tl) => leadMatch needle hay || subOccurs needle tl

/-- Python `needle in hay` on strings: substring containment. -/
def strContains (hay needle : String) : Bool :=
  subOccurs needle.data hay.data

/-- The success-marker line searched for one agent type:
`f"\n{_AGENT_DETAILS[t].name} runs successfully.\n"`. The types reaching
this point passed validation, so the dictionary lookup cannot fail; an
unknown type is given an out-of-band name standing for the `KeyError` path. -/
def successMarker (agentType : String) : String :=
  match AGENT_DETAILS agentType with
  | some d => "\n" ++ d.name ++ " runs successfully.\n"
  | none => "\nKeyError\n"

/-- `ProvisioningTask.wait_for_completion`: skipped tasks return untouched;
without process info nothing happens; otherwise the output of the successful
attempt's process is collected, per-agent success is decided by marker
containment, `agents_status` is populated, and the status becomes Success
iff every agent's marker was found, else Failure. -/
def wait_for_completion (t : Task) (ex : Exec) : Task :=
  if t.status = ProvisioningStatus.SKIPPED then t
  else
    match t.process_info with
    | none => t
    | some pi =>
      let outs := ex.output pi.attempt
      let per_agent_success := t.agent_types.map (fun ty =>
        (ty, strContains outs (successMarker ty)))
      let agents_status := per_agent_success.map (fun p =>
        (p.1, if p.2 then "successfully runs" else Bold "fails to run"))
      let status :=
        if per_agent_success.all (·.2) then ProvisioningStatus.SUCCESS
        else ProvisioningStatus.FAILURE
      { t with
        process_info := some { pi with out_content := some outs }
        agents_status := agents_status
        status := status }

/-- The log-file path printed by the final report
(`task.process_info.log_file`); only evaluated for tasks whose
`agents_status` is nonempty, which implies `process_info` is set. -/
def taskLogFile (t : Task) : String :=
  match t.process_info with
  | some pi => pi.log_file
  | none => ""

/-- One line of the final itemized report for a non-skipped task. -/
def reportLine (t : Task) (agentType agentStatus : String) : String :=
  "Instance: " ++ t.instance_info.str ++ " " ++ agentStatus ++ " " ++
  agentType ++ ". See log file in: " ++ taskLogFile t

/-- The final itemized per-task report loop of
`Provisioner._write_process_output_and_print_status`: a skipped task prints
one skip line; any other task prints one line per entry of its
`agents_status` mapping (and hence nothing when that mapping is empty). -/
def reportLines (tasks : List Task) : List String :=
  tasks.flatMap (fun t =>
    if t.status = ProvisioningStatus.SKIPPED then
      ["Instance: " ++ t.instance_info.str ++ " was skipped."]
    else
      t.agents_status.map (fun p => reportLine t p.1 p.2))

/-- The status a freshly constructed task gets in `Provisioner.run`:
Skipped iff the instance's canonical name is in the loaded state with stored
status `"SUCCESS"`, else Pending. -/
def taskStatusFor (state : StateMap) (instance_full_name : String) :
    ProvisioningStatus :=
  match stateLookup state instance_full_name with
  | some rec =>
    if rec.status = ProvisioningStatus.SUCCESS.value then
      ProvisioningStatus.SKIPPED
    else ProvisioningStatus.PENDING
  | none => ProvisioningStatus.PENDING

/-- Construction of one `ProvisioningTask` in the dispatch loop of
`Provisioner.run`. -/
def makeTask (state : StateMap) (log_dir : String) (max_retries : Nat)
    (provider : Option ProviderKind)
    (pe : InstanceInfo × List AgentRule) : Task :=
  { instance_info := pe.1
    agent_rules := pe.2
    log_dir := log_dir
    max_retries := max_retries
    status := taskStatusFor state pe.1.str
    process_info := none
    agents_status := []
    provider := provider }

/-- The validation-then-dispatch skeleton of `Provisioner.run`: when
`_parse_and_validate_entries` raises `EntriesValidationError`, the method
logs, prints and returns — no task is constructed; otherwise one task per
parsed entry is created and submitted. -/
def provisionerTasks (entries : List Entry) (state : StateMap)
    (log_dir : String) (max_retries : Nat) (provider : Option ProviderKind) :
    List Task :=
  match parse_and_validate_entries entries with
  | .error _ => []
  | .ok parsed => parsed.map (makeTask state log_dir max_retries provider)

/-!
Concrete executor environments, tasks, entries and state used to exercise
the model on closed inputs.
-/

/-- An executor whose processes always exit nonzero. -/
def exAlwaysFail : Exec := ⟨fun _ => 1, fun _ => ""⟩

/-- An executor whose first process exits 1 and whose second exits 0. -/
def exSecondOk : Exec := ⟨fun i => if i = 1 then 0 else 1, fun _ => ""⟩

/-- An executor whose processes exit 0 but whose captured output contains no
agent success marker. -/
def exZeroNoMarker : Exec :=
  ⟨fun _ => 0, fun _ => "command output without any success marker"⟩

/-- A pending task carrying a built-in provider instance (the orchestrator
always sets one). -/
def taskProviderGcloud : Task :=
  ⟨⟨"p", "z", "i"⟩, [⟨"logging", none⟩], "logs", 3,
   ProvisioningStatus.PENDING, none, [], some ProviderKind.localGcloud⟩

/-- A pending single-rule `ops-agent` task on the `_popen` path
(`provider is None`, as in the repository's own tests). -/
def taskPopen : Task :=
  ⟨⟨"p", "z", "i"⟩, [⟨"ops-agent", none⟩], "logs", 3,
   ProvisioningStatus.PENDING, none, [], none⟩

/-- `taskPopen` after `run` against the zero-exit, marker-less executor:
status Running with a process handle from attempt 0. -/
def taskRanZero : Task := (ProvisioningTask.run taskPopen exZeroNoMarker).task

/-- `taskRanZero` after output collection and classification. -/
def taskClassified : Task := wait_for_completion taskRanZero exZeroNoMarker

/-- An entry with an invalid instance full name and a valid rule list. -/
def entA : Entry := ⟨"bad-name", some [⟨some "logging", none⟩]⟩

/-- A fully valid entry. -/
def entB : Entry :=
  ⟨"projects/p/zones/z/instances/i", some [⟨some "logging", none⟩]⟩

/-- A persisted state recording success for `projects/p/zones/z/instances/i`. -/
def stateWithSuccess : StateMap :=
  [("projects/p/zones/z/instances/i",
    ⟨"SUCCESS", "2024-01-01T00:00:00.000000Z"⟩)]

/-!
Theorems.
-/

/-- Claim C9, counterexample: the version string consisting of "1.2.3"
followed by a newline is accepted by `_validate_agent_version` (CPython's
`$` matches before a final newline) although it is neither the literal
"latest" nor of the form digits.digits.digits nor digits.*.*, so the
claimed iff fails. -/
theorem C9_counterexample_trailing_newline :
    validate_agent_version "1.2.3\n" = [] ∧
    "1.2.3\n" ≠ AGENT_VERSION_LATEST ∧
    matchesPinnedVersion "1.2.3\n" = false ∧
    matchesPinnedMajorVersion "1.2.3\n" = false :=
  ⟨by decide, by decide, by decide, by decide⟩

/-- Claim C9 (amended): validation of a version string `v` passes (returns
no errors) if and only if `v` is the literal "latest", or `v` matches
digits.digits.digits or digits.*.*, or `v` ends in a newline and `v` with
that final newline removed matches one of those two forms (the `$` anchor of
the two pinned-version regexes also matches just before a final newline);
every other string produces a validation error. -/
theorem C9_version_validation (v : String) :
    validate_agent_version v = [] ↔
      (v = AGENT_VERSION_LATEST ∨ matchesPinnedVersion v = true ∨
       matchesPinnedMajorVersion v = true ∨
       (strEndsWithNewline v = true ∧
        (matchesPinnedVersion (strDropLast v) = true ∨
         matchesPinnedMajorVersion (strDropLast v) = true))) := by
  by_cases h : v = AGENT_VERSION_LATEST
  · simp [validate_agent_version, h]
  · rw [validate_agent_version, if_neg h]
    by_cases hb : (searchAnchored matchesPinnedMajorVersion v ||
        searchAnchored matchesPinnedVersion v) = true
    · rw [if_pos hb]
      simp only [searchAnchored, Bool.or_eq_true, Bool.and_eq_true] at hb
      constructor
      · intro _
        tauto
      · intro _
        rfl
    · rw [if_neg hb]
      simp only [searchAnchored, Bool.or_eq_true, Bool.and_eq_true] at hb
      constructor
      · intro he
        exact absurd he (by simp)
      · intro hr
        exact absurd hr (by tauto)

/-- Claim C6, counterexample: a state file whose content fails JSON decoding
makes `_read_state` raise (the `try` around `json.load` catches only
`FileNotFoundError`), contradicting "malformed prior state is treated as
empty rather than raising". -/
theorem C6_counterexample_malformed_state_raises :
    read_state false
      (StateFileRead.content (Except.error "Expecting value: line 1 column 1 (char 0)")) =
    Except.error (PyException.jsonDecodeError "Expecting value: line 1 column 1 (char 0)") :=
  rfl

/-- Claim C6 (amended): loading the persisted state returns an empty mapping
without an exception when force mode is on or when the state file is
missing, and returns the decoded mapping when decoding succeeds; but when
the file exists and its content is malformed, the JSON decode error
propagates out of `_read_state` (only `FileNotFoundError` is caught). -/
theorem C6_read_state_behaviour (file : StateFileRead) (m : StateMap) (e : String) :
    read_state true file = Except.ok [] ∧
    read_state false StateFileRead.fileNotFound = Except.ok [] ∧
    read_state false (StateFileRead.content (Except.ok m)) = Except.ok m ∧
    read_state false (StateFileRead.content (Except.error e)) =
      Except.error (PyException.jsonDecodeError e) :=
  ⟨rfl, rfl, rfl, rfl⟩

/-- Claim C7, counterexample: with the provider selector set to "paramiko"
and the dry-run flag on, `Provisioner.__init__` selects the paramiko
transport, not the simulated mock — the `provider == "paramiko"` branch is
tested before `dry_run`. -/
theorem C7_counterexample_paramiko_overrides_dry_run :
    selectProviderInstance "paramiko" true = ProviderKind.paramiko ∧
    ProviderKind.paramiko ≠ ProviderKind.mock :=
  ⟨rfl, by decide⟩

/-- Claim C7 (amended): whenever the dry-run flag is on and the provider
selector is not "paramiko", the executor used is the simulated mock
provider, whose processes exit 0 with fixed output; with selector
"paramiko" the paramiko transport is chosen even under dry-run. -/
theorem C7_dry_run_selects_mock (provider : String) (h : provider ≠ "paramiko") :
    selectProviderInstance provider true = ProviderKind.mock ∧
    selectProviderInstance "paramiko" true = ProviderKind.paramiko ∧
    mockProcWait = 0 ∧
    mockProcOutput = "[mock] simulated output" := by
  refine ⟨?_, rfl, rfl, rfl⟩
  unfold selectProviderInstance
  rw [if_neg h]
  rfl

/-- Witness for C7: the default selector "local-gcloud" with dry-run on
yields the mock provider. -/
theorem C7_witness :
    "local-gcloud" ≠ "paramiko" ∧
    selectProviderInstance "local-gcloud" true = ProviderKind.mock := by
  have h : ("local-gcloud" : String) ≠ "paramiko" := by decide
  exact ⟨h, (C7_dry_run_selects_mock "local-gcloud" h).1⟩

/-- Claim C1: for every non-skipped task whose provider field is set to one
of the three built-in providers, the `start_process` call site passes
exactly two positional arguments while every built-in provider's
`start_process` requires three, so the first loop iteration raises a
`TypeError` — which `ProvisioningTask.run` does not catch (it catches only
`SSHCommandError`) — and `_start_process` starts no process and never
returns an operation handle through the provider path. -/
theorem C1_provider_call_arity_mismatch (t : Task) (ex : Exec)
    (pk : ProviderKind)
    (hst : t.status ≠ ProvisioningStatus.SKIPPED)
    (hp : t.provider = some pk) (hr : 1 ≤ t.max_retries) :
    startProcessCallArgCount = 2 ∧
    startProcessParamCount pk = 3 ∧
    (start_process t ex).2.2 = Except.error PyException.typeError ∧
    (start_process t ex).1 = 0 ∧
    (ProvisioningTask.run t ex).uncaught = some PyException.typeError ∧
    (ProvisioningTask.run t ex).task.process_info = t.process_info := by
  have h3 : startProcessParamCount pk = 3 := by cases pk <;> rfl
  obtain ⟨n, hn⟩ : ∃ n, t.max_retries = n + 1 := ⟨t.max_retries - 1, by omega⟩
  have hsp : start_process t ex = (0, [], Except.error PyException.typeError) := by
    simp [start_process, hp, hn, startAttempts, h3, startProcessCallArgCount]
  have hrun : ProvisioningTask.run t ex =
      ⟨{ t with status := ProvisioningStatus.RUNNING }, 0, [],
       some PyException.typeError⟩ := by
    simp only [ProvisioningTask.run, if_neg hst, hsp]
  exact ⟨rfl, h3, by rw [hsp], by rw [hsp], by rw [hrun], by rw [hrun]⟩

/-- Witness for C1 at a concrete pending task with the local-gcloud
provider. -/
theorem C1_witness :
    taskProviderGcloud.status ≠ ProvisioningStatus.SKIPPED ∧
    taskProviderGcloud.provider = some ProviderKind.localGcloud ∧
    1 ≤ taskProviderGcloud.max_retries ∧
    (ProvisioningTask.run taskProviderGcloud exAlwaysFail).uncaught =
      some PyException.typeError := by
  have h := C1_provider_call_arity_mismatch taskProviderGcloud exAlwaysFail
    ProviderKind.localGcloud (by decide) rfl (by decide)
  exact ⟨by decide, rfl, by decide, h.2.2.2.2.1⟩

/-- Claim C2: for a non-skipped task holding a zero-exit operation handle
(and whose rule types are all known agents), after output collection the
status is Success iff the captured output contains every agent type's
success-marker line, and if some agent's marker is absent the status is
Failure even though the command exited zero. -/
theorem C2_success_iff_all_markers (t : Task) (ex : Exec) (pi : ProcessInfo)
    (hst : t.status ≠ ProvisioningStatus.SKIPPED)
    (hpi : t.process_info = some pi)
    (_hvalid : ∀ ty ∈ t.agent_types, (AGENT_DETAILS ty).isSome = true) :
    ((wait_for_completion t ex).status = ProvisioningStatus.SUCCESS ↔
      ∀ ty ∈ t.agent_types,
        strContains (ex.output pi.attempt) (successMarker ty) = true) ∧
    ((∃ ty ∈ t.agent_types,
        strContains (ex.output pi.attempt) (successMarker ty) = false) →
      (wait_for_completion t ex).status = ProvisioningStatus.FAILURE) := by
  have hstat : (wait_for_completion t ex).status =
      (if (t.agent_types.map (fun ty =>
            (ty, strContains (ex.output pi.attempt) (successMarker ty)))).all
          (fun p => p.2) then
        ProvisioningStatus.SUCCESS else ProvisioningStatus.FAILURE) := by
    simp only [wait_for_completion, if_neg hst, hpi]
  have hall : ((t.agent_types.map (fun ty =>
        (ty, strContains (ex.output pi.attempt) (successMarker ty)))).all
        (fun p => p.2) = true) ↔
      ∀ ty ∈ t.agent_types,
        strContains (ex.output pi.attempt) (successMarker ty) = true := by
    rw [List.all_eq_true]
    constructor
    · intro h ty hty
      exact h (ty, strContains (ex.output pi.attempt) (successMarker ty))
        (List.mem_map_of_mem _ hty)
    · intro h p hp
      obtain ⟨ty, hty, rfl⟩ := List.mem_map.mp hp
      exact h ty hty
  constructor
  · rw [hstat]
    by_cases hb : (t.agent_types.map (fun ty =>
        (ty, strContains (ex.output pi.attempt) (successMarker ty)))).all
        (fun p => p.2) = true
    · rw [if_pos hb]
      exact ⟨fun _ => hall.mp hb, fun _ => rfl⟩
    · rw [if_neg hb]
      constructor
      · intro hfs
        exact absurd hfs (by decide)
      · intro hr
        exact absurd (hall.mpr hr) hb
  · rintro ⟨ty, hty, hf⟩
    have hb : ¬((t.agent_types.map (fun ty =>
        (ty, strContains (ex.output pi.attempt) (successMarker ty)))).all
        (fun p => p.2) = true) := by
      intro hb
      have h2 := hall.mp hb ty hty
      rw [h2] at hf
      cases hf
    rw [hstat, if_neg hb]

/-- Witness for C2: the end-to-end single-host scenario — single rule
`ops-agent`, executor exits 0 but its output lacks the ops-agent success
marker; the final status is Failure. -/
theorem C2_witness :
    taskRanZero.status ≠ ProvisioningStatus.SKIPPED ∧
    taskRanZero.process_info = some ⟨0, "logs/p_z_i.log", none⟩ ∧
    (wait_for_completion taskRanZero exZeroNoMarker).status =
      ProvisioningStatus.FAILURE := by
  have h := C2_success_iff_all_markers taskRanZero exZeroNoMarker
    ⟨0, "logs/p_z_i.log", none⟩ (by decide) (by decide) (by decide)
  refine ⟨by decide, by decide, h.2 ⟨"ops-agent", by decide, by decide⟩⟩

/-- Claim C5: a validated host recorded Success in the loaded state (force
off) gets a task constructed Skipped, and running that task performs zero
executor invocations and returns immediately; with force mode on the prior
state is never loaded (`_read_state` returns before reading the file), so
the same host's task starts Pending and is dispatched normally. -/
theorem C5_skip_on_prior_success (state : StateMap) (log_dir : String)
    (max_retries : Nat) (provider : Option ProviderKind)
    (pe : InstanceInfo × List AgentRule) (ex : Exec) (rec : StateRecord)
    (hlook : stateLookup state pe.1.str = some rec)
    (hsucc : rec.status = "SUCCESS") :
    (makeTask state log_dir max_retries provider pe).status =
      ProvisioningStatus.SKIPPED ∧
    ProvisioningTask.run (makeTask state log_dir max_retries provider pe) ex =
      ⟨makeTask state log_dir max_retries provider pe, 0, [], none⟩ ∧
    (∀ file, read_state true file = Except.ok []) ∧
    (makeTask [] log_dir max_retries provider pe).status =
      ProvisioningStatus.PENDING := by
  have hskip : (makeTask state log_dir max_retries provider pe).status =
      ProvisioningStatus.SKIPPED := by
    simp only [makeTask, taskStatusFor, hlook, hsucc]
    rfl
  have hrun : ProvisioningTask.run
      (makeTask state log_dir max_retries provider pe) ex =
      ⟨makeTask state log_dir max_retries provider pe, 0, [], none⟩ := by
    simp only [ProvisioningTask.run, if_pos hskip]
  exact ⟨hskip, hrun, fun _ => rfl, rfl⟩

/-- Witness for C5 at a concrete state mapping and host. -/
theorem C5_witness :
    stateLookup stateWithSuccess (InstanceInfo.str ⟨"p", "z", "i"⟩) =
      some ⟨"SUCCESS", "2024-01-01T00:00:00.000000Z"⟩ ∧
    (makeTask stateWithSuccess "logs" 3 none
      (⟨"p", "z", "i"⟩, [⟨"logging", none⟩])).status =
      ProvisioningStatus.SKIPPED ∧
    ProvisioningTask.run (makeTask stateWithSuccess "logs" 3 none
      (⟨"p", "z", "i"⟩, [⟨"logging", none⟩])) exAlwaysFail =
      ⟨makeTask stateWithSuccess "logs" 3 none
        (⟨"p", "z", "i"⟩, [⟨"logging", none⟩]), 0, [], none⟩ ∧
    (makeTask [] "logs" 3 none
      (⟨"p", "z", "i"⟩, [⟨"logging", none⟩])).status =
      ProvisioningStatus.PENDING := by
  have h := C5_skip_on_prior_success stateWithSuccess "logs" 3 none
    (⟨"p", "z", "i"⟩, [⟨"logging", none⟩]) exAlwaysFail
    ⟨"SUCCESS", "2024-01-01T00:00:00.000000Z"⟩ (by decide) rfl
  exact ⟨by decide, h.1, h.2.1, h.2.2.2⟩

/-- Claim C8, counterexample: a host whose transport attempts were all
exhausted ends in Failure with an empty per-agent status map (output
classification never ran), so the end-of-run itemized report prints no line
at all for that host — contradicting "contains at least one line for that
host". -/
theorem C8_counterexample_transport_failure_unreported :
    (wait_for_completion (ProvisioningTask.run taskPopen exAlwaysFail).task
      exAlwaysFail).status = ProvisioningStatus.FAILURE ∧
    (wait_for_completion (ProvisioningTask.run taskPopen exAlwaysFail).task
      exAlwaysFail).agents_status = [] ∧
    reportLines [wait_for_completion
      (ProvisioningTask.run taskPopen exAlwaysFail).task exAlwaysFail] = [] :=
  ⟨by decide, by decide, by decide⟩

/-- Claim C8 (amended): for every non-skipped task, the end-of-run itemized
report contains, for each entry of its per-agent status map, a line naming
the instance, that agent and its status, and pointing at the task's log
file; in particular a Failure from a missing marker is reported per agent.
A host whose transport attempts were exhausted has an empty per-agent map
and produces no report line. -/
theorem C8_failure_report_lines (tasks : List Task) (t : Task)
    (ty st : String) (hmem : t ∈ tasks)
    (hst : t.status ≠ ProvisioningStatus.SKIPPED)
    (has : (ty, st) ∈ t.agents_status) :
    reportLine t ty st ∈ reportLines tasks := by
  simp only [reportLines, List.mem_flatMap]
  refine ⟨t, hmem, ?_⟩
  rw [if_neg hst]
  exact List.mem_map.mpr ⟨(ty, st), has, rfl⟩

/-- Witness for C8: the classified marker-missing failure task yields a
report line for its failing agent. -/
theorem C8_witness :
    taskClassified ∈ [taskClassified] ∧
    taskClassified.status ≠ ProvisioningStatus.SKIPPED ∧
    ("ops-agent", Bold "fails to run") ∈ taskClassified.agents_status ∧
    reportLine taskClassified "ops-agent" (Bold "fails to run") ∈
      reportLines [taskClassified] := by
  have hm : taskClassified ∈ [taskClassified] := List.mem_singleton_self _
  have h := C8_failure_report_lines [taskClassified] taskClassified
    "ops-agent" (Bold "fails to run") hm (by decide) (by decide)
  exact ⟨hm, by decide, by decide, h⟩

/-- The backoff list of a window of `n` failed attempts starting at attempt
index `i`, unfolded one step. -/
theorem range_pow_shift (n i : Nat) :
    (List.range (n + 1)).map (fun j => 2 ^ (i + j)) =
      2 ^ i :: (List.range n).map (fun j => 2 ^ (i + 1 + j)) := by
  rw [List.range_succ_eq_map, List.map_cons, List.map_map]
  refine congrArg₂ List.cons (by simp) ?_
  apply List.map_congr_left
  intro j _
  have hij : i + Nat.succ j = i + 1 + j := by omega
  simp [Function.comp, hij]

/-- On the `_popen` path, if every attempt's process exits nonzero, the
retry loop runs all `n` remaining iterations, sleeping `2^i` after each
failed attempt, and ends with the `SSHCommandError`. -/
theorem startAttempts_all_fail (ex : Exec) (file msg : String)
    (hfail : ∀ i, ex.exit i ≠ 0) :
    ∀ n i, startAttempts none ex file msg n i =
      (n, (List.range n).map (fun j => 2 ^ (i + j)),
       Except.error (PyException.sshCommandError msg)) := by
  intro n
  induction n with
  | zero =>
    intro i
    simp [startAttempts]
  | succ n ih =>
    intro i
    rw [startAttempts]
    simp only [if_neg (hfail i), ih (i + 1), range_pow_shift]
    simp

/-- On the `_popen` path, if the first `k` attempts exit nonzero and attempt
`k` (0-based, counting from start index `i`) exits zero, the loop starts
exactly `k + 1` processes, sleeps after each of the `k` failures, and
returns the successful attempt's process info. -/
theorem startAttempts_first_success (ex : Exec) (file msg : String) :
    ∀ k n i, k + 1 ≤ n → (∀ j, j < k → ex.exit (i + j) ≠ 0) →
      ex.exit (i + k) = 0 →
      startAttempts none ex file msg n i =
        (k + 1, (List.range k).map (fun j => 2 ^ (i + j)),
         Except.ok ⟨i + k, file, none⟩) := by
  intro k
  induction k with
  | zero =>
    intro n i hn _ hz
    obtain ⟨m, rfl⟩ : ∃ m, n = m + 1 := ⟨n - 1, by omega⟩
    rw [startAttempts]
    simp only [Nat.add_zero] at hz
    simp [hz]
  | succ k ih =>
    intro n i hn hfail hz
    obtain ⟨m, rfl⟩ : ∃ m, n = m + 1 := ⟨n - 1, by omega⟩
    have h0 : ex.exit i ≠ 0 := by simpa using hfail 0 (by omega)
    rw [startAttempts]
    rw [if_neg h0]
    have hfail2 : ∀ j, j < k → ex.exit (i + 1 + j) ≠ 0 := by
      intro j hj
      have := hfail (j + 1) (by omega)
      have harith : i + (j + 1) = i + 1 + j := by omega
      rwa [harith] at this
    have hz2 : ex.exit (i + 1 + k) = 0 := by
      have harith : i + (k + 1) = i + 1 + k := by omega
      rwa [harith] at hz
    rw [ih m (i + 1) (by omega) hfail2 hz2, range_pow_shift]
    have harith : i + 1 + k = i + (k + 1) := by omega
    simp [harith]

/-- Claim C4: on the `_popen` executor path (`provider is None`, the path
the repository's own tests exercise), a task with `max_retries = N` run
against an executor that always exits nonzero starts exactly N processes,
sleeps `2^i` seconds after failed attempt `i` (0-based), and raises an
`SSHCommandError` whose message names the instance and its log file; if
instead attempt `k` (0-based, so 1-based attempt `k + 1 ≤ N`) exits zero,
exactly `k + 1` processes are started and the loop returns the handle with
no failure raised. -/
theorem C4_retry_loop_behaviour (t : Task) (ex : Exec)
    (hprov : t.provider = none) :
    ((∀ i, ex.exit i ≠ 0) →
      start_process t ex = (t.max_retries,
        (List.range t.max_retries).map (fun j => 2 ^ j),
        Except.error (PyException.sshCommandError
          (sshCommandErrorMsg t.instance_info t.max_retries t.instance_file)))) ∧
    (∃ a b, sshCommandErrorMsg t.instance_info t.max_retries t.instance_file =
      a ++ t.instance_info.instanceName ++ b) ∧
    (∃ a, sshCommandErrorMsg t.instance_info t.max_retries t.instance_file =
      a ++ t.instance_file) ∧
    (∀ k, k + 1 ≤ t.max_retries → (∀ j, j < k → ex.exit j ≠ 0) →
      ex.exit k = 0 →
      start_process t ex = (k + 1, (List.range k).map (fun j => 2 ^ j),
        Except.ok ⟨k, t.instance_file, none⟩)) := by
  refine ⟨?_, ?_, ?_, ?_⟩
  · intro hfail
    have h := startAttempts_all_fail ex t.instance_file
      (sshCommandErrorMsg t.instance_info t.max_retries t.instance_file)
      hfail t.max_retries 0
    rw [start_process, hprov]
    simpa using h
  · refine ⟨"Instance: ", " - Command failed after " ++
      toString t.max_retries ++
      " retries. See log file for more details: " ++ t.instance_file, ?_⟩
    apply String.ext
    simp [sshCommandErrorMsg, String.data_append, List.append_assoc]
  · exact ⟨"Instance: " ++ t.instance_info.instanceName ++
      " - Command failed after " ++ toString t.max_retries ++
      " retries. See log file for more details: ", rfl⟩
  · intro k hk hfail hz
    have h := startAttempts_first_success ex t.instance_file
      (sshCommandErrorMsg t.instance_info t.max_retries t.instance_file)
      k t.max_retries 0 hk (by simpa using hfail) (by simpa using hz)
    rw [start_process, hprov]
    simpa using h

/-- Witness for C4: with `max_retries = 3`, the always-failing executor is
invoked exactly 3 times with sleeps 1, 2, 4 and an `SSHCommandError`
results; the executor succeeding on its second attempt is invoked exactly
twice with no failure. -/
theorem C4_witness :
    (∀ i, exAlwaysFail.exit i ≠ 0) ∧
    start_process taskPopen exAlwaysFail = (taskPopen.max_retries,
      (List.range taskPopen.max_retries).map (fun j => 2 ^ j),
      Except.error (PyException.sshCommandError
        (sshCommandErrorMsg taskPopen.instance_info taskPopen.max_retries
          taskPopen.instance_file))) ∧
    exSecondOk.exit 1 = 0 ∧
    start_process taskPopen exSecondOk =
      (2, [1], Except.ok ⟨1, taskPopen.instance_file, none⟩) := by
  have hfail : ∀ i, exAlwaysFail.exit i ≠ 0 := fun _ => by simp [exAlwaysFail]
  have h := C4_retry_loop_behaviour taskPopen exAlwaysFail rfl
  have h2 := C4_retry_loop_behaviour taskPopen exSecondOk rfl
  have hsucc := h2.2.2.2 1 (by decide)
    (fun j hj => by
      have hj0 : j = 0 := by omega
      rw [hj0]
      decide)
    (by decide)
  refine ⟨hfail, h.1 hfail, by decide, ?_⟩
  simpa using hsucc

/-- Claim C3: whenever any entry has a validation error of any kind (invalid
host identifier, unparseable or schema-invalid rule list, invalid agent type
or version) or a duplicate host exists, validation collects every entry's
error messages (it never stops at the first bad entry), joins them into one
aggregate failure, and the run stops before constructing or dispatching any
provisioning task — valid entries in the same input are not provisioned. -/
theorem C3_validation_exhaustive_aborts (entries : List Entry)
    (state : StateMap) (log_dir : String) (max_retries : Nat)
    (provider : Option ProviderKind)
    (hbad : (∃ e ∈ entries, (validateEntry e).1 ≠ []) ∨
      duplicate_instances (entries.map (·.instance_full_name)) ≠ []) :
    ∃ msgs : List String, msgs ≠ [] ∧
      parse_and_validate_entries entries =
        Except.error (String.intercalate "\n" msgs) ∧
      (∀ e ∈ entries, ∀ m ∈ (validateEntry e).1, m ∈ msgs) ∧
      provisionerTasks entries state log_dir max_retries provider = [] := by
  have hEne : aggregated_error_msgs entries ≠ [] := by
    rcases hbad with ⟨e, he, hene⟩ | hdup
    · obtain ⟨m, hm⟩ := List.exists_mem_of_ne_nil _ hene
      exact List.ne_nil_of_mem (List.mem_append_left _
        (List.mem_flatten.mpr ⟨(validateEntry e).1, List.mem_map_of_mem _ he, hm⟩))
    · have hif : ¬((duplicate_instances
          (entries.map (·.instance_full_name))).isEmpty = true) := by
        simpa [List.isEmpty_iff] using hdup
      have hie : validate_instances_duplication
            (entries.map (·.instance_full_name)) =
          some (String.intercalate "\n"
            ((duplicate_instances (entries.map (·.instance_full_name))).map
              duplicateErrorLine)) := by
        simp only [validate_instances_duplication]
        rw [if_neg hif]
      have hmm : String.intercalate "\n"
            ((duplicate_instances (entries.map (·.instance_full_name))).map
              duplicateErrorLine) ∈ aggregated_error_msgs entries := by
        simp only [aggregated_error_msgs, hie]
        exact List.mem_append_right _ (List.mem_singleton_self _)
      exact List.ne_nil_of_mem hmm
  have hif2 : ¬((aggregated_error_msgs entries).isEmpty = true) := by
    simpa [List.isEmpty_iff] using hEne
  have herr : parse_and_validate_entries entries =
      Except.error (String.intercalate "\n" (aggregated_error_msgs entries)) := by
    simp only [parse_and_validate_entries]
    rw [if_neg hif2]
  have htasks : provisionerTasks entries state log_dir max_retries provider = [] := by
    simp only [provisionerTasks, herr]
  refine ⟨aggregated_error_msgs entries, hEne, herr, ?_, htasks⟩
  intro e he m hm
  exact List.mem_append_left _
    (List.mem_flatten.mpr ⟨(validateEntry e).1, List.mem_map_of_mem _ he, hm⟩)

/-- Witness for C3: one invalid entry alongside one fully valid entry —
validation fails and no task is created, the valid entry included. -/
theorem C3_witness :
    (∃ e ∈ [entA, entB], (validateEntry e).1 ≠ []) ∧
    (validateEntry entB).1 = [] ∧
    provisionerTasks [entA, entB] [] "logs" 3 none = [] := by
  have hbad : (∃ e ∈ [entA, entB], (validateEntry e).1 ≠ []) ∨
      duplicate_instances ([entA, entB].map (·.instance_full_name)) ≠ [] :=
    Or.inl (by decide)
  obtain ⟨msgs, hne, herr, hall, htasks⟩ :=
    C3_validation_exhaustive_aborts [entA, entB] [] "logs" 3 none hbad
  exact ⟨by decide, by decide, htasks⟩

/-- Membership is preserved by first-occurrence deduplication. -/
theorem mem_firstOccDedup {a : String} :
    ∀ {l : List String}, a ∈ firstOccDedup l ↔ a ∈ l := by
  intro l
  induction l with
  | nil => simp [firstOccDedup]
  | cons b t ih =>
    simp only [firstOccDedup, List.mem_cons, List.mem_filter, ih]
    by_cases hab : a = b
    · simp [hab]
    · simp [hab]

/-- First-occurrence deduplication yields a list without duplicates. -/
theorem nodup_firstOccDedup : ∀ l : List String, (firstOccDedup l).Nodup := by
  intro l
  induction l with
  | nil => simp [firstOccDedup]
  | cons b t ih =>
    simp only [firstOccDedup, List.nodup_cons]
    refine ⟨?_, ih.filter _⟩
    simp [List.mem_filter]

/-- The duplicate-error line determines the instance name it was built
from. -/
theorem duplicateErrorLine_injective : Function.Injective duplicateErrorLine := by
  intro a b h
  have hd := congrArg String.data h
  simp only [duplicateErrorLine, String.data_append, List.append_assoc] at hd
  exact String.ext (List.append_cancel_right (List.append_cancel_left hd))

/-- The pre-sort duplicate lists of two permuted inputs are permutations of
each other. -/
theorem duplicate_filter_perm {l l' : List String} (h : l.Perm l') :
    ((firstOccDedup l).filter (fun k => 1 < l.count k)).Perm
      ((firstOccDedup l').filter (fun k => 1 < l'.count k)) := by
  apply List.perm_of_nodup_nodup_toFinset_eq
  · exact (nodup_firstOccDedup l).filter _
  · exact (nodup_firstOccDedup l').filter _
  · ext x
    simp only [List.mem_toFinset, List.mem_filter, mem_firstOccDedup,
      decide_eq_true_eq]
    rw [h.mem_iff, h.count_eq]

/-- Claim C10: duplicate-host detection is order-independent (permuting the
entries leaves the duplicate list unchanged), reports an identifier
occurring at least twice exactly once — both in the identifier list and in
the formatted error lines — and lists the duplicated identifiers in sorted
order. -/
theorem C10_duplicate_detection (l l' : List String) (k : String) :
    (l.Perm l' → duplicate_instances l = duplicate_instances l') ∧
    ((duplicate_instances l).count k = if 2 ≤ l.count k then 1 else 0) ∧
    (((duplicate_instances l).map duplicateErrorLine).count
      (duplicateErrorLine k) = if 2 ≤ l.count k then 1 else 0) ∧
    (duplicate_instances l).Sorted (· ≤ ·) := by
  have hnodup : ∀ m : List String, (duplicate_instances m).Nodup := by
    intro m
    exact (List.perm_insertionSort _ _).nodup_iff.mpr
      ((nodup_firstOccDedup m).filter _)
  have hmem : ∀ m : List String, ∀ x : String,
      (x ∈ duplicate_instances m ↔ 2 ≤ m.count x) := by
    intro m x
    rw [duplicate_instances, (List.perm_insertionSort _ _).mem_iff]
    simp only [List.mem_filter, mem_firstOccDedup, decide_eq_true_eq]
    constructor
    · rintro ⟨_, h2⟩
      omega
    · intro h2
      exact ⟨List.count_pos_iff.mp (by omega), by omega⟩
  have hcount : (duplicate_instances l).count k =
      if 2 ≤ l.count k then 1 else 0 := by
    by_cases h2 : 2 ≤ l.count k
    · rw [if_pos h2]
      exact List.count_eq_one_of_mem (hnodup l) ((hmem l k).mpr h2)
    · rw [if_neg h2]
      exact List.count_eq_zero_of_not_mem (fun hm => h2 ((hmem l k).mp hm))
  refine ⟨?_, hcount, ?_, List.sorted_insertionSort _ _⟩
  · intro hperm
    exact List.eq_of_perm_of_sorted
      ((List.perm_insertionSort _ _).trans
        ((duplicate_filter_perm hperm).trans
          (List.perm_insertionSort _ _).symm))
      (List.sorted_insertionSort _ _) (List.sorted_insertionSort _ _)
  · rw [List.count_map_of_injective _ _ duplicateErrorLine_injective, hcount]

/-- Witness for C10 at a concrete permuted pair of inputs. -/
theorem C10_witness :
    (["b", "a", "b"] : List String).Perm ["a", "b", "b"] ∧
    duplicate_instances ["b", "a", "b"] = duplicate_instances ["a", "b", "b"] ∧
    (duplicate_instances ["b", "a", "b"]).count "b" =
      (if 2 ≤ (["b", "a", "b"] : List String).count "b" then 1 else 0) := by
  have hp : (["b", "a", "b"] : List String).Perm ["a", "b", "b"] :=
    List.Perm.swap "a" "b" ["b"]
  have h := C10_duplicate_detection ["b", "a", "b"] ["a", "b", "b"] "b"
  exact ⟨hp, h.1 hp, h.2.1⟩

end Provisioning
